import Mathlib

/-!
Verification development for the tablespy scrollable-table component
(`table` package, file with `Model`, `New`, `UpdateViewport`, `MoveUp`,
`MoveDown`, `MoveRight`, `MoveLeft`, `calc_paddings`).

Go `int` values are modelled as `Int` (the arithmetic in this component
stays far below machine bounds: cursors, offsets and lengths are clamped
to the grid size, which the surrounding tool reads from a file).
Go slice indexing, which panics when the index is out of `[0, len)`,
is modelled by the `Option`-valued functions suffixed with `P`
(`listGetP`, `renderCellsP`, `renderRowP`, `UpdateViewportP`,
`MoveUpP`, ..., `NewP`); `none` models a runtime panic.  The total
functions (`renderRow`, `UpdateViewport`, `MoveUp`, ...) carry the state
of the component and agree with the `P` versions wherever the Go code
does not panic (proved below).

The styling library (lipgloss) and the viewport widget (bubbles) are
external collaborators of the spec target; they are modelled from the
spec's description of them (see `Viewport`, `RenderedRow`).
-/

/-- Go helper `clamp(v, low, high) { return min(max(v, low), high) }`
from the table package. -/
def clamp (v low high : Int) : Int := min (max v low) high

/-- Go `len(s)` on a string counts UTF-8 bytes. -/
def glen (s : String) : Nat := s.utf8ByteSize

/-- Modelled from the spec: the Layout/Style helper "turns a string +
width/alignment/color into a fixed-width renderable block", consumed as
an opaque block.  A rendered body row is therefore modelled by the data
the core feeds it: the row-index label, the cell strings from
`cursor_col` rightward, and whether the row is the highlighted cursor
row. -/
structure RenderedRow where
  label : Int
  cells : List String
  highlighted : Bool
  deriving DecidableEq

/-- Modelled from the spec: the Viewport external collaborator (bubbles
`viewport.Model`) "holds a content string and a vertical scroll offset
within a fixed visible height; supports setting content and adjusting
offset".  The content buffer is modelled as the list of rendered rows. -/
structure Viewport where
  width : Int
  height : Int
  yOffset : Int
  content : List RenderedRow
  deriving DecidableEq

/-- Modelled from the spec: `viewport.New(width, height)` returns a
viewport with the given dimensions, offset 0 and empty content. -/
def Viewport.new (w h : Int) : Viewport :=
  { width := w, height := h, yOffset := 0, content := [] }

/-- Modelled from the spec: `SetYOffset` (and the direct `YOffset`
assignments in the table code) adjust the viewport's scroll offset. -/
def Viewport.setYOffset (vp : Viewport) (n : Int) : Viewport :=
  { vp with yOffset := n }

/-- Modelled from the spec: `SetContent` replaces the viewport's content
buffer. -/
def Viewport.setContent (vp : Viewport) (c : List RenderedRow) : Viewport :=
  { vp with content := c }

/-- The table `Model` struct: grid (`cols`, `rows`), per-column widths
(`paddings`), cursor, viewport, and the visible window `[start, end)`
(Go field `end` is `end_` here). -/
structure Model where
  cols : List String
  rows : List (List String)
  paddings : List Nat
  cursor_row : Int
  cursor_col : Int
  viewport : Viewport
  start : Int
  end_ : Int
  deriving DecidableEq

/-- `m.viewport.SetYOffset(v)` / `m.viewport.YOffset = v` as a state
update on the model. -/
def setOff (m : Model) (v : Int) : Model :=
  { m with viewport := m.viewport.setYOffset v }

/-- Inner loop of `calc_paddings`: `for j, value := range record {
paddings[j] = max(paddings[j], len(value)) }`.  When the record is
longer than `paddings`, Go panics; the total model returns the junk
value `[]` there (`upd_recordP` below returns `none`). -/
def upd_record : List Nat → List String → List Nat
  | ps, [] => ps
  | [], _ :: _ => []
  | p :: ps, v :: vs => max p (glen v) :: upd_record ps vs

/-- Panic-aware version of `upd_record`: `none` models the index panic
when a record is longer than the paddings slice. -/
def upd_recordP : List Nat → List String → Option (List Nat)
  | ps, [] => some ps
  | [], _ :: _ => none
  | p :: ps, v :: vs => (upd_recordP ps vs).map (fun t => max p (glen v) :: t)

/-- Outer loop of `calc_paddings`: `for _, record := range elements`. -/
def upd_all : List Nat → List (List String) → List Nat
  | ps, [] => ps
  | ps, rec :: rest => upd_all (upd_record ps rec) rest

/-- Panic-aware version of `upd_all`. -/
def upd_allP : List Nat → List (List String) → Option (List Nat)
  | ps, [] => some ps
  | ps, rec :: rest =>
    match upd_recordP ps rec with
    | some ps2 => upd_allP ps2 rest
    | none => none

/-- `calc_paddings`: elements = cols followed by all rows; paddings
starts as `make([]int, len(cols))` (all zero); each element bumps the
per-column maxima; finally every padding gets `+ 1`. -/
def calc_paddings (cols : List String) (rows : List (List String)) : List Nat :=
  (upd_all (List.replicate cols.length 0) (cols :: rows)).map (fun p => p + 1)

/-- Panic-aware version of `calc_paddings`. -/
def calc_paddingsP (cols : List String) (rows : List (List String)) :
    Option (List Nat) :=
  (upd_allP (List.replicate cols.length 0) (cols :: rows)).map
    (List.map (fun p => p + 1))

/-- Go slice read `xs[i]`: defined for `0 ≤ i < len(xs)`, panic
(`none`) otherwise. -/
def listGetP {α : Type} (xs : List α) (i : Int) : Option α :=
  if h : 0 ≤ i ∧ i.toNat < xs.length then some (xs.get ⟨i.toNat, h.2⟩) else none

/-- The cell loop of `renderRow`, with an explicit iteration bound
`fuel` so the recursion is structural (and hence evaluates inside the
kernel): each step either stops (`i ≥ len(row)`, loop exit), panics
(`none`, an out-of-range read of the row or of `paddings`), or consumes
one unit of fuel and continues at `i + 1`. -/
def renderCellsAux (row : List String) (pads : List Nat) (fuel : Nat) (i : Int) :
    Option (List String) :=
  if i < (row.length : Int) then
    match listGetP row i, listGetP pads i with
    | some v, some _ =>
      match fuel with
      | 0 => none
      | fuel2 + 1 => (renderCellsAux row pads fuel2 (i + 1)).map (fun rest => v :: rest)
    | _, _ => none
  else some []

/-- The cell loop of `renderRow`:
`for i := m.cursor_col; i < len(m.rows[r]); i++ { value := m.rows[r][i];
width := m.paddings[i]; ... }` — each iteration reads the cell and its
padding (panicking when `i` is out of range of either slice) and appends
the rendered cell.  `row.length` units of fuel always suffice: a
successful read forces `0 ≤ i`, so at most `len(row) - i ≤ len(row)`
iterations can occur, and the fuel bound is never the reason for a
`none`. -/
def renderCellsP (row : List String) (pads : List Nat) (i : Int) :
    Option (List String) :=
  renderCellsAux row pads row.length i

/-- Panic-aware `renderRow(r)`: reads `m.rows[r]`, renders the cells
from `cursor_col` rightward and marks the row highlighted when
`r == m.cursor_row`. -/
def renderRowP (m : Model) (r : Int) : Option RenderedRow :=
  match listGetP m.rows r with
  | some row =>
    match renderCellsP row m.paddings m.cursor_col with
    | some cs => some { label := r, cells := cs, highlighted := r == m.cursor_row }
    | none => none
  | none => none

/-- Total carrier of `renderRow`: identical to `renderRowP` wherever the
Go code does not panic (proved in `renderRowP_some`). -/
def renderRow (m : Model) (r : Int) : RenderedRow :=
  { label := r
    cells := ((listGetP m.rows r).bind
      (fun row => renderCellsP row m.paddings m.cursor_col)).getD []
    highlighted := r == m.cursor_row }

/-- `for i := a; i < b; i++` index sequence. -/
def intRange (a b : Int) : List Int :=
  (List.range (b - a).toNat).map (fun k => a + Int.ofNat k)

/-- Option-valued map over a list, failing as soon as one element fails
(the render loop with possible panics). -/
def mapMP {α β : Type} (f : α → Option β) : List α → Option (List β)
  | [] => some []
  | a :: l =>
    match f a, mapMP f l with
    | some b, some bs => some (b :: bs)
    | _, _ => none

/-- `UpdateViewport`'s start assignment:
`if m.cursor_row >= 0 { m.start = clamp(m.cursor_row-m.viewport.Height,
0, m.cursor_row) } else { m.start = 0 }`. -/
def viewStart (m : Model) : Int :=
  if 0 ≤ m.cursor_row then clamp (m.cursor_row - m.viewport.height) 0 m.cursor_row
  else 0

/-- `UpdateViewport`'s end assignment:
`m.end = clamp(m.cursor_row+m.viewport.Height, m.cursor_row, len(m.rows))`. -/
def viewEnd (m : Model) : Int :=
  clamp (m.cursor_row + m.viewport.height) m.cursor_row (m.rows.length : Int)

/-- `UpdateViewport`: recompute the visible window and re-render rows
`[start, end)` into the viewport's content buffer. -/
def UpdateViewport (m : Model) : Model :=
  { m with
      start := viewStart m
      end_ := viewEnd m
      viewport := m.viewport.setContent
        ((intRange (viewStart m) (viewEnd m)).map (renderRow m)) }

/-- Panic-aware `UpdateViewport`. -/
def UpdateViewportP (m : Model) : Option Model :=
  match mapMP (renderRowP m) (intRange (viewStart m) (viewEnd m)) with
  | some content =>
    some { m with
            start := viewStart m
            end_ := viewEnd m
            viewport := m.viewport.setContent content }
  | none => none

/-- The scroll-offset `switch` of `MoveUp`, evaluated after the cursor
update and before `UpdateViewport` (so `m.start` is the stale window
start). -/
def moveUpAux (m : Model) (n : Int) : Model :=
  if m.start = 0 then
    setOff m (clamp m.viewport.yOffset 0 m.cursor_row)
  else if m.start < m.viewport.height then
    setOff m (clamp (clamp (m.viewport.yOffset + n) 0 m.cursor_row) 0 m.viewport.height)
  else if 1 ≤ m.viewport.yOffset then
    setOff m (clamp (m.viewport.yOffset + n) 1 m.viewport.height)
  else m

/-- `MoveUp(n)`: clamp the cursor, run the offset switch on the stale
window, then recompute the window. -/
def MoveUp (m : Model) (n : Int) : Model :=
  UpdateViewport
    (moveUpAux { m with cursor_row := clamp (m.cursor_row - n) 0 ((m.rows.length : Int) - 1) } n)

/-- The scroll-offset `switch` of `MoveDown`, evaluated after
`UpdateViewport` (so `m.start`/`m.end_` are the freshly recomputed
window). -/
def moveDownAux (m : Model) (n : Int) : Model :=
  if m.end_ = (m.rows.length : Int) ∧ 0 < m.viewport.yOffset then
    setOff m (clamp (m.viewport.yOffset - n) 1 m.viewport.height)
  else if Int.tdiv (m.end_ - m.start) 2 < m.cursor_row ∧ 0 < m.viewport.yOffset then
    setOff m (clamp (m.viewport.yOffset - n) 1 m.cursor_row)
  else if 1 < m.viewport.yOffset then m
  else if m.viewport.yOffset + m.viewport.height - 1 < m.cursor_row then
    setOff m (clamp (m.viewport.yOffset + 1) 0 1)
  else m

/-- `MoveDown(n)`: clamp the cursor, recompute the window, then run the
offset switch on the recomputed window. -/
def MoveDown (m : Model) (n : Int) : Model :=
  moveDownAux
    (UpdateViewport { m with cursor_row := clamp (m.cursor_row + n) 0 ((m.rows.length : Int) - 1) }) n

/-- `MoveRight(n)`: clamp the column cursor and recompute. -/
def MoveRight (m : Model) (n : Int) : Model :=
  UpdateViewport { m with cursor_col := clamp (m.cursor_col + n) 0 ((m.cols.length : Int) - 1) }

/-- `MoveLeft(n)`: clamp the column cursor and recompute. -/
def MoveLeft (m : Model) (n : Int) : Model :=
  UpdateViewport { m with cursor_col := clamp (m.cursor_col - n) 0 ((m.cols.length : Int) - 1) }

/-- Panic-aware `MoveUp`. -/
def MoveUpP (m : Model) (n : Int) : Option Model :=
  UpdateViewportP
    (moveUpAux { m with cursor_row := clamp (m.cursor_row - n) 0 ((m.rows.length : Int) - 1) } n)

/-- Panic-aware `MoveDown`. -/
def MoveDownP (m : Model) (n : Int) : Option Model :=
  match UpdateViewportP { m with cursor_row := clamp (m.cursor_row + n) 0 ((m.rows.length : Int) - 1) } with
  | some u => some (moveDownAux u n)
  | none => none

/-- Panic-aware `MoveRight`. -/
def MoveRightP (m : Model) (n : Int) : Option Model :=
  UpdateViewportP { m with cursor_col := clamp (m.cursor_col + n) 0 ((m.cols.length : Int) - 1) }

/-- Panic-aware `MoveLeft`. -/
def MoveLeftP (m : Model) (n : Int) : Option Model :=
  UpdateViewportP { m with cursor_col := clamp (m.cursor_col - n) 0 ((m.cols.length : Int) - 1) }

/-- `New(WithColumns(cols), WithRows(rows))`: cursor (0,0), viewport of
height `min(30, len(rows))`, paddings from `calc_paddings`, then an
initial `UpdateViewport`. -/
def New (cols : List String) (rows : List (List String)) : Model :=
  UpdateViewport
    { cols := cols
      rows := rows
      paddings := calc_paddings cols rows
      cursor_row := 0
      cursor_col := 0
      viewport := Viewport.new 0 (min 30 (rows.length : Int))
      start := 0
      end_ := 0 }

/-- Panic-aware `New`. -/
def NewP (cols : List String) (rows : List (List String)) : Option Model :=
  match calc_paddingsP cols rows with
  | some pads =>
    UpdateViewportP
      { cols := cols
        rows := rows
        paddings := pads
        cursor_row := 0
        cursor_col := 0
        viewport := Viewport.new 0 (min 30 (rows.length : Int))
        start := 0
        end_ := 0 }
  | none => none

/-- The navigation events the host event loop feeds to the table:
line up/down, column left/right, and the page variants (which `Update`
dispatches as `MoveUp(m.viewport.Height)` / `MoveDown(m.viewport.Height)`). -/
inductive NavOp : Type
  | up (n : Int)
  | down (n : Int)
  | left (n : Int)
  | right (n : Int)
  | pageUp
  | pageDown

/-- Dispatch one navigation event (the `Update` key handler). -/
def applyOp (m : Model) : NavOp → Model
  | NavOp.up n => MoveUp m n
  | NavOp.down n => MoveDown m n
  | NavOp.left n => MoveLeft m n
  | NavOp.right n => MoveRight m n
  | NavOp.pageUp => MoveUp m m.viewport.height
  | NavOp.pageDown => MoveDown m m.viewport.height

/-- A navigation sequence. -/
def applyOps (m : Model) (ops : List NavOp) : Model := ops.foldl applyOp m

/-- Panic-aware dispatch. -/
def applyOpP (m : Model) : NavOp → Option Model
  | NavOp.up n => MoveUpP m n
  | NavOp.down n => MoveDownP m n
  | NavOp.left n => MoveLeftP m n
  | NavOp.right n => MoveRightP m n
  | NavOp.pageUp => MoveUpP m m.viewport.height
  | NavOp.pageDown => MoveDownP m m.viewport.height

/-- Panic-aware navigation sequence: fails as soon as one event panics. -/
def applyOpsP (m : Model) : List NavOp → Option Model
  | [] => some m
  | op :: rest =>
    match applyOpP m op with
    | some m2 => applyOpsP m2 rest
    | none => none

/-- Formalisation of claim C5's own wording: cursor update first, then
the priority-ordered offset rules — read against the window fields as
they stand before any recomputation — and only then the window
recomputation.  (The code recomputes the window before the rules; see
`MoveDown`.) -/
def MoveDownClaimC5 (m : Model) (n : Int) : Model :=
  UpdateViewport
    (moveDownAux { m with cursor_row := clamp (m.cursor_row + n) 0 ((m.rows.length : Int) - 1) } n)

/-- Amended form of claim C5: cursor update, window recomputation, then
the offset rules read against the recomputed window, then the (here
redundant) re-render. -/
def MoveDownSpecC5 (m : Model) (n : Int) : Model :=
  UpdateViewport
    (moveDownAux
      (UpdateViewport { m with cursor_row := clamp (m.cursor_row + n) 0 ((m.rows.length : Int) - 1) }) n)

/-- Per-column maximum cell byte-length over a list of rows (the claim
C6 formula "max over all rows of len(row[i])"). -/
def colMax (rows : List (List String)) (i : Nat) : Nat :=
  (rows.map (fun r => glen (r.getD i ""))).foldr max 0

/-! Frame lemmas: which fields each operation leaves untouched. -/

theorem UpdateViewport_cursor_row (m : Model) : (UpdateViewport m).cursor_row = m.cursor_row := rfl

theorem UpdateViewport_cursor_col (m : Model) : (UpdateViewport m).cursor_col = m.cursor_col := rfl

theorem UpdateViewport_cols (m : Model) : (UpdateViewport m).cols = m.cols := rfl

theorem UpdateViewport_rows (m : Model) : (UpdateViewport m).rows = m.rows := rfl

theorem UpdateViewport_paddings (m : Model) : (UpdateViewport m).paddings = m.paddings := rfl

theorem UpdateViewport_height (m : Model) : (UpdateViewport m).viewport.height = m.viewport.height := rfl

theorem UpdateViewport_yOffset (m : Model) : (UpdateViewport m).viewport.yOffset = m.viewport.yOffset := rfl

theorem UpdateViewport_start (m : Model) : (UpdateViewport m).start = viewStart m := rfl

theorem UpdateViewport_end (m : Model) : (UpdateViewport m).end_ = viewEnd m := rfl

theorem setOff_cursor_row (m : Model) (v : Int) : (setOff m v).cursor_row = m.cursor_row := rfl

theorem moveUpAux_cursor_row (m : Model) (n : Int) :
    (moveUpAux m n).cursor_row = m.cursor_row := by
  unfold moveUpAux; split_ifs <;> rfl

theorem moveUpAux_cursor_col (m : Model) (n : Int) :
    (moveUpAux m n).cursor_col = m.cursor_col := by
  unfold moveUpAux; split_ifs <;> rfl

theorem moveUpAux_cols (m : Model) (n : Int) : (moveUpAux m n).cols = m.cols := by
  unfold moveUpAux; split_ifs <;> rfl

theorem moveUpAux_rows (m : Model) (n : Int) : (moveUpAux m n).rows = m.rows := by
  unfold moveUpAux; split_ifs <;> rfl

theorem moveUpAux_paddings (m : Model) (n : Int) : (moveUpAux m n).paddings = m.paddings := by
  unfold moveUpAux; split_ifs <;> rfl

theorem moveUpAux_height (m : Model) (n : Int) :
    (moveUpAux m n).viewport.height = m.viewport.height := by
  unfold moveUpAux; split_ifs <;> rfl

theorem moveDownAux_cursor_row (m : Model) (n : Int) :
    (moveDownAux m n).cursor_row = m.cursor_row := by
  unfold moveDownAux; split_ifs <;> rfl

theorem moveDownAux_cursor_col (m : Model) (n : Int) :
    (moveDownAux m n).cursor_col = m.cursor_col := by
  unfold moveDownAux; split_ifs <;> rfl

theorem moveDownAux_cols (m : Model) (n : Int) : (moveDownAux m n).cols = m.cols := by
  unfold moveDownAux; split_ifs <;> rfl

theorem moveDownAux_rows (m : Model) (n : Int) : (moveDownAux m n).rows = m.rows := by
  unfold moveDownAux; split_ifs <;> rfl

theorem moveDownAux_paddings (m : Model) (n : Int) : (moveDownAux m n).paddings = m.paddings := by
  unfold moveDownAux; split_ifs <;> rfl

theorem moveDownAux_height (m : Model) (n : Int) :
    (moveDownAux m n).viewport.height = m.viewport.height := by
  unfold moveDownAux; split_ifs <;> rfl

theorem moveDownAux_start (m : Model) (n : Int) : (moveDownAux m n).start = m.start := by
  unfold moveDownAux; split_ifs <;> rfl

theorem moveDownAux_end (m : Model) (n : Int) : (moveDownAux m n).end_ = m.end_ := by
  unfold moveDownAux; split_ifs <;> rfl

/-! Cursor characterisations of the four moves. -/

theorem MoveUp_cursor_row (m : Model) (n : Int) :
    (MoveUp m n).cursor_row = clamp (m.cursor_row - n) 0 ((m.rows.length : Int) - 1) := by
  unfold MoveUp
  rw [UpdateViewport_cursor_row, moveUpAux_cursor_row]

theorem MoveDown_cursor_row (m : Model) (n : Int) :
    (MoveDown m n).cursor_row = clamp (m.cursor_row + n) 0 ((m.rows.length : Int) - 1) := by
  unfold MoveDown
  rw [moveDownAux_cursor_row, UpdateViewport_cursor_row]

theorem MoveRight_cursor_col (m : Model) (n : Int) :
    (MoveRight m n).cursor_col = clamp (m.cursor_col + n) 0 ((m.cols.length : Int) - 1) := rfl

theorem MoveLeft_cursor_col (m : Model) (n : Int) :
    (MoveLeft m n).cursor_col = clamp (m.cursor_col - n) 0 ((m.cols.length : Int) - 1) := rfl

theorem MoveUp_cursor_col (m : Model) (n : Int) : (MoveUp m n).cursor_col = m.cursor_col := by
  unfold MoveUp
  rw [UpdateViewport_cursor_col, moveUpAux_cursor_col]

theorem MoveDown_cursor_col (m : Model) (n : Int) : (MoveDown m n).cursor_col = m.cursor_col := by
  unfold MoveDown
  rw [moveDownAux_cursor_col, UpdateViewport_cursor_col]

theorem MoveRight_cursor_row (m : Model) (n : Int) : (MoveRight m n).cursor_row = m.cursor_row := rfl

theorem MoveLeft_cursor_row (m : Model) (n : Int) : (MoveLeft m n).cursor_row = m.cursor_row := rfl

theorem MoveRight_yOffset (m : Model) (n : Int) :
    (MoveRight m n).viewport.yOffset = m.viewport.yOffset := rfl

theorem MoveLeft_yOffset (m : Model) (n : Int) :
    (MoveLeft m n).viewport.yOffset = m.viewport.yOffset := rfl

theorem MoveUp_rows (m : Model) (n : Int) : (MoveUp m n).rows = m.rows := by
  unfold MoveUp
  rw [UpdateViewport_rows, moveUpAux_rows]

theorem MoveDown_rows (m : Model) (n : Int) : (MoveDown m n).rows = m.rows := by
  unfold MoveDown
  rw [moveDownAux_rows, UpdateViewport_rows]

theorem MoveUp_cols (m : Model) (n : Int) : (MoveUp m n).cols = m.cols := by
  unfold MoveUp
  rw [UpdateViewport_cols, moveUpAux_cols]

theorem MoveDown_cols (m : Model) (n : Int) : (MoveDown m n).cols = m.cols := by
  unfold MoveDown
  rw [moveDownAux_cols, UpdateViewport_cols]

theorem MoveUp_paddings (m : Model) (n : Int) : (MoveUp m n).paddings = m.paddings := by
  unfold MoveUp
  rw [UpdateViewport_paddings, moveUpAux_paddings]

theorem MoveDown_paddings (m : Model) (n : Int) : (MoveDown m n).paddings = m.paddings := by
  unfold MoveDown
  rw [moveDownAux_paddings, UpdateViewport_paddings]

theorem MoveRight_rows (m : Model) (n : Int) : (MoveRight m n).rows = m.rows := rfl

theorem MoveLeft_rows (m : Model) (n : Int) : (MoveLeft m n).rows = m.rows := rfl

theorem MoveRight_cols (m : Model) (n : Int) : (MoveRight m n).cols = m.cols := rfl

theorem MoveLeft_cols (m : Model) (n : Int) : (MoveLeft m n).cols = m.cols := rfl

theorem MoveRight_paddings (m : Model) (n : Int) : (MoveRight m n).paddings = m.paddings := rfl

theorem MoveLeft_paddings (m : Model) (n : Int) : (MoveLeft m n).paddings = m.paddings := rfl

theorem applyOp_rows (m : Model) (op : NavOp) : (applyOp m op).rows = m.rows := by
  cases op <;> simp [applyOp, MoveUp_rows, MoveDown_rows, MoveRight_rows, MoveLeft_rows]

theorem applyOp_cols (m : Model) (op : NavOp) : (applyOp m op).cols = m.cols := by
  cases op <;> simp [applyOp, MoveUp_cols, MoveDown_cols, MoveRight_cols, MoveLeft_cols]

theorem applyOp_paddings (m : Model) (op : NavOp) : (applyOp m op).paddings = m.paddings := by
  cases op <;>
    simp [applyOp, MoveUp_paddings, MoveDown_paddings, MoveRight_paddings, MoveLeft_paddings]

theorem New_cursor_row (cols : List String) (rows : List (List String)) :
    (New cols rows).cursor_row = 0 := rfl

theorem New_cursor_col (cols : List String) (rows : List (List String)) :
    (New cols rows).cursor_col = 0 := rfl

theorem New_rows (cols : List String) (rows : List (List String)) :
    (New cols rows).rows = rows := rfl

theorem New_cols (cols : List String) (rows : List (List String)) :
    (New cols rows).cols = cols := rfl

theorem New_paddings (cols : List String) (rows : List (List String)) :
    (New cols rows).paddings = calc_paddings cols rows := rfl

theorem New_height (cols : List String) (rows : List (List String)) :
    (New cols rows).viewport.height = min 30 (rows.length : Int) := rfl

/-! Window recomputation is idempotent and offset-independent. -/

theorem UpdateViewport_setOff (m : Model) (v : Int) :
    UpdateViewport (setOff (UpdateViewport m) v) = setOff (UpdateViewport m) v := rfl

theorem UpdateViewport_idem (m : Model) :
    UpdateViewport (UpdateViewport m) = UpdateViewport m := rfl

theorem UpdateViewport_moveDownAux (m : Model) (n : Int) :
    UpdateViewport (moveDownAux (UpdateViewport m) n) = moveDownAux (UpdateViewport m) n := by
  unfold moveDownAux
  split_ifs <;> exact UpdateViewport_setOff m _

/-! Claims. -/

/-- Claim C1: the spec says construction sets the viewport height to
`min(configuredMax, rowCount)` with `configuredMax` the `-height` flag
(default 20).  The code hardcodes `min(30, rowCount)` — on a 25-row grid
it allocates height 25, not `min 20 25 = 20`; the parsed flag value is
never handed to the table (a dead `table_height` field in `parseArgs`'s
result). -/
theorem C1_height_ignores_configured_max :
    (New ["A"] (List.replicate 25 ["x"])).viewport.height = 25 ∧
      ¬(min (20 : Int) 25 = 25) := by decide

/-- Claim C2 (counterexample): on a 31-row grid, one `MoveDown(1)` after
construction yields a recomputed window with `end − start = 31` while
the visible height is 30, refuting `end − start ≤ visibleHeight`. -/
theorem C2_counterexample :
    ¬((MoveDown (New ["A"] (List.replicate 31 ["x"])) 1).end_
        - (MoveDown (New ["A"] (List.replicate 31 ["x"])) 1).start
        ≤ (MoveDown (New ["A"] (List.replicate 31 ["x"])) 1).viewport.height) := by decide

/-- Claim C2 (amended): after a window recomputation with
`cursor_row ≥ 0` and a nonnegative height, the window span equals
`min(cursor_row + H, rowCount) − max(cursor_row − H, 0)`; hence it is at
most `2·H` (not `H`), and it equals `rowCount` whenever
`rowCount ≤ H` and the cursor is in range. -/
theorem C2_amended (m : Model) (hc : 0 ≤ m.cursor_row) (hH : 0 ≤ m.viewport.height) :
    (UpdateViewport m).end_ - (UpdateViewport m).start
        = min (m.cursor_row + m.viewport.height) (m.rows.length : Int)
          - max (m.cursor_row - m.viewport.height) 0 ∧
      (UpdateViewport m).end_ - (UpdateViewport m).start ≤ 2 * m.viewport.height ∧
      ((m.rows.length : Int) ≤ m.viewport.height → m.cursor_row < (m.rows.length : Int) →
        (UpdateViewport m).end_ - (UpdateViewport m).start = (m.rows.length : Int)) := by
  rw [UpdateViewport_start, UpdateViewport_end]
  unfold viewStart viewEnd clamp
  rw [if_pos hc]
  omega

/-- Witness for `C2_amended` at a concrete freshly built 2-row table. -/
theorem C2_amended_witness :
    0 ≤ (New ["A"] [["x"], ["y"]]).cursor_row ∧
      0 ≤ (New ["A"] [["x"], ["y"]]).viewport.height ∧
      ((UpdateViewport (New ["A"] [["x"], ["y"]])).end_
          - (UpdateViewport (New ["A"] [["x"], ["y"]])).start
          = min ((New ["A"] [["x"], ["y"]]).cursor_row + (New ["A"] [["x"], ["y"]]).viewport.height)
              (((New ["A"] [["x"], ["y"]]).rows.length : Int))
            - max ((New ["A"] [["x"], ["y"]]).cursor_row - (New ["A"] [["x"], ["y"]]).viewport.height) 0 ∧
        (UpdateViewport (New ["A"] [["x"], ["y"]])).end_
            - (UpdateViewport (New ["A"] [["x"], ["y"]])).start
            ≤ 2 * (New ["A"] [["x"], ["y"]]).viewport.height ∧
        (((New ["A"] [["x"], ["y"]]).rows.length : Int) ≤ (New ["A"] [["x"], ["y"]]).viewport.height →
          (New ["A"] [["x"], ["y"]]).cursor_row < ((New ["A"] [["x"], ["y"]]).rows.length : Int) →
          (UpdateViewport (New ["A"] [["x"], ["y"]])).end_
              - (UpdateViewport (New ["A"] [["x"], ["y"]])).start
              = ((New ["A"] [["x"], ["y"]]).rows.length : Int))) :=
  ⟨by decide, by decide, C2_amended (New ["A"] [["x"], ["y"]]) (by decide) (by decide)⟩

/-- Claim C4 (counterexample): on a 3-row table with the cursor at row 1,
`MoveDown(5)` clamps to the last row and the following `MoveUp(5)` lands
on row 0, not back on row 1 — the inverse law fails when `MoveDown`
clamps. -/
theorem C4_counterexample :
    ¬((MoveUp (MoveDown (MoveDown (New ["A"] [["a"], ["b"], ["c"]]) 1) 5) 5).cursor_row
        = (MoveDown (New ["A"] [["a"], ["b"], ["c"]]) 1).cursor_row) := by decide

/-- Claim C4 (amended): `MoveDown(n)` then `MoveUp(n)` restores
`cursor_row` provided the starting cursor is nonnegative and
`cursor_row + n` does not exceed the last row (so `MoveDown` does not
clamp); the scroll offset is not constrained. -/
theorem C4_amended (m : Model) (n : Int) (hn : 1 ≤ n) (h0 : 0 ≤ m.cursor_row)
    (h2 : m.cursor_row + n ≤ (m.rows.length : Int) - 1) :
    (MoveUp (MoveDown m n) n).cursor_row = m.cursor_row := by
  rw [MoveUp_cursor_row, MoveDown_rows, MoveDown_cursor_row]
  unfold clamp
  omega

/-- Witness for `C4_amended` on a fresh 3-row table with `n = 2`. -/
theorem C4_amended_witness :
    (1 : Int) ≤ 2 ∧ 0 ≤ (New ["A"] [["a"], ["b"], ["c"]]).cursor_row ∧
      (New ["A"] [["a"], ["b"], ["c"]]).cursor_row + 2
        ≤ (((New ["A"] [["a"], ["b"], ["c"]]).rows.length : Int)) - 1 ∧
      (MoveUp (MoveDown (New ["A"] [["a"], ["b"], ["c"]]) 2) 2).cursor_row
        = (New ["A"] [["a"], ["b"], ["c"]]).cursor_row :=
  ⟨by decide, by decide, by decide,
    C4_amended (New ["A"] [["a"], ["b"], ["c"]]) 2 (by decide) (by decide) (by decide)⟩

/-- Claim C5 (counterexample): a reachable state of a 40-row table on
which the code's `MoveDown(1)` (rules evaluated after the window
recomputation) sets the offset to 1, while the claim's order (rules
first, recomputation afterwards) leaves the offset at 2: the stale
window still ends at 39 < 40, so the claim's rule (3) fires instead of
rule (1). -/
theorem C5_counterexample :
    (MoveDown (MoveUp (MoveUp (MoveDown (New ["A"] (List.replicate 40 ["x"])) 31) 1) 21)
        1).viewport.yOffset = 1 ∧
      (MoveDownClaimC5 (MoveUp (MoveUp (MoveDown (New ["A"] (List.replicate 40 ["x"])) 31) 1) 21)
          1).viewport.yOffset = 2 := by decide

/-- Claim C5 (amended): `MoveDown(n)` clamps the cursor, recomputes the
window, and only then applies the priority-ordered offset rule table to
the freshly recomputed window; a final recomputation is redundant
because the rendered window does not depend on the offset. -/
theorem C5_amended (m : Model) (n : Int) : MoveDown m n = MoveDownSpecC5 m n := by
  unfold MoveDown MoveDownSpecC5
  exact (UpdateViewport_moveDownAux _ n).symm

/-- Claim C7 (counterexample): on a zero-row table, `MoveDown(1)` drives
the cursor to the −1 sentinel and the recomputed window is
`start = 0, end = −1`, violating both disjuncts of the claim. -/
theorem C7_counterexample :
    ¬(((MoveDown (New ["A"] ([] : List (List String))) 1).start
          ≤ (MoveDown (New ["A"] ([] : List (List String))) 1).cursor_row ∧
        (MoveDown (New ["A"] ([] : List (List String))) 1).cursor_row
          < (MoveDown (New ["A"] ([] : List (List String))) 1).end_) ∨
      ((MoveDown (New ["A"] ([] : List (List String))) 1).end_ = 0 ∧
        (MoveDown (New ["A"] ([] : List (List String))) 1).start = 0)) := by decide

/-- Claim C7 (amended): for a state whose viewport height is the
constructed `min(30, rowCount)`: after recomputation
`start ≤ cursor_row < end` holds whenever `0 ≤ cursor_row < rowCount`;
and when `rowCount = 0` (where `cursor_row ∈ {0, −1}`), `start = 0` and
`end = cursor_row` — so `end = start = 0` holds at construction but
`end = −1` after the first vertical move. -/
theorem C7_amended (m : Model) (hH : m.viewport.height = min 30 (m.rows.length : Int)) :
    (0 ≤ m.cursor_row → m.cursor_row < (m.rows.length : Int) →
      (UpdateViewport m).start ≤ m.cursor_row ∧ m.cursor_row < (UpdateViewport m).end_) ∧
    (m.rows.length = 0 → m.cursor_row ≤ 0 →
      (UpdateViewport m).start = 0 ∧ (UpdateViewport m).end_ = m.cursor_row) := by
  rw [UpdateViewport_start, UpdateViewport_end]
  unfold viewStart viewEnd clamp
  split_ifs <;> omega

/-- Witness for `C7_amended` on a fresh 1-row table. -/
theorem C7_amended_witness :
    (New ["A"] [["x"]]).viewport.height = min 30 (((New ["A"] [["x"]]).rows.length : Int)) ∧
      ((0 ≤ (New ["A"] [["x"]]).cursor_row →
          (New ["A"] [["x"]]).cursor_row < (((New ["A"] [["x"]]).rows.length : Int)) →
          (UpdateViewport (New ["A"] [["x"]])).start ≤ (New ["A"] [["x"]]).cursor_row ∧
            (New ["A"] [["x"]]).cursor_row < (UpdateViewport (New ["A"] [["x"]])).end_) ∧
        ((New ["A"] [["x"]]).rows.length = 0 → (New ["A"] [["x"]]).cursor_row ≤ 0 →
          (UpdateViewport (New ["A"] [["x"]])).start = 0 ∧
            (UpdateViewport (New ["A"] [["x"]])).end_ = (New ["A"] [["x"]]).cursor_row)) :=
  ⟨by decide, C7_amended (New ["A"] [["x"]]) (by decide)⟩

/-- Claim C9: horizontal moves keep `cursor_row` and the scroll offset;
vertical moves keep `cursor_col`; and no navigation event (including the
page variants) touches the grid or the column width table. -/
theorem C9_frame (m : Model) (n : Int) :
    (MoveLeft m n).cursor_row = m.cursor_row ∧
      (MoveLeft m n).viewport.yOffset = m.viewport.yOffset ∧
      (MoveRight m n).cursor_row = m.cursor_row ∧
      (MoveRight m n).viewport.yOffset = m.viewport.yOffset ∧
      (MoveUp m n).cursor_col = m.cursor_col ∧
      (MoveDown m n).cursor_col = m.cursor_col ∧
      ∀ op : NavOp, (applyOp m op).cols = m.cols ∧ (applyOp m op).rows = m.rows ∧
        (applyOp m op).paddings = m.paddings :=
  ⟨MoveLeft_cursor_row m n, MoveLeft_yOffset m n, MoveRight_cursor_row m n,
    MoveRight_yOffset m n, MoveUp_cursor_col m n, MoveDown_cursor_col m n,
    fun op => ⟨applyOp_cols m op, applyOp_rows m op, applyOp_paddings m op⟩⟩

/-- Claim C10: construction always starts with `cursor_row = 0`; on a
zero-row grid the first vertical move (any `n ≥ 1`) sets the −1
sentinel, every later vertical move keeps it, and the sentinel never
appears at construction. -/
theorem C10_sentinel (cols : List String) (rows : List (List String)) (n : Int)
    (hn : 1 ≤ n) (hrows : rows = []) :
    (New cols rows).cursor_row = 0 ∧
      (MoveDown (New cols rows) n).cursor_row = -1 ∧
      (MoveUp (New cols rows) n).cursor_row = -1 ∧
      (∀ m : Model, m.rows = [] → m.cursor_row = -1 →
        (MoveDown m n).cursor_row = -1 ∧ (MoveUp m n).cursor_row = -1) ∧
      (∀ (cols2 : List String) (rows2 : List (List String)), (New cols2 rows2).cursor_row = 0) := by
  subst hrows
  refine ⟨rfl, ?_, ?_, ?_, fun c2 r2 => rfl⟩
  · rw [MoveDown_cursor_row, New_rows, New_cursor_row]
    simp only [List.length_nil]
    unfold clamp
    omega
  · rw [MoveUp_cursor_row, New_rows, New_cursor_row]
    simp only [List.length_nil]
    unfold clamp
    omega
  · intro m hm hcr
    refine ⟨?_, ?_⟩
    · rw [MoveDown_cursor_row, hm, hcr]
      simp only [List.length_nil]
      unfold clamp
      omega
    · rw [MoveUp_cursor_row, hm, hcr]
      simp only [List.length_nil]
      unfold clamp
      omega

/-- Witness for `C10_sentinel` with one column, zero rows, `n = 1`. -/
theorem C10_sentinel_witness :
    (1 : Int) ≤ 1 ∧ ([] : List (List String)) = [] ∧
      ((New ["A"] ([] : List (List String))).cursor_row = 0 ∧
        (MoveDown (New ["A"] ([] : List (List String))) 1).cursor_row = -1 ∧
        (MoveUp (New ["A"] ([] : List (List String))) 1).cursor_row = -1 ∧
        (∀ m : Model, m.rows = [] → m.cursor_row = -1 →
          (MoveDown m 1).cursor_row = -1 ∧ (MoveUp m 1).cursor_row = -1) ∧
        (∀ (cols2 : List String) (rows2 : List (List String)), (New cols2 rows2).cursor_row = 0)) :=
  ⟨by decide, rfl, C10_sentinel ["A"] [] 1 (by decide) rfl⟩

/-! Cursor bounds along navigation sequences. -/

/-- Cursor-in-bounds invariant for grids with at least one row and one
column. -/
def CInv (m : Model) : Prop :=
  0 ≤ m.cursor_row ∧ m.cursor_row ≤ (m.rows.length : Int) - 1 ∧
    0 ≤ m.cursor_col ∧ m.cursor_col ≤ (m.cols.length : Int) - 1

theorem CInv_applyOp (m : Model) (op : NavOp) (hr : 1 ≤ m.rows.length)
    (hc : 1 ≤ m.cols.length) (h : CInv m) : CInv (applyOp m op) := by
  obtain ⟨h1, h2, h3, h4⟩ := h
  cases op <;>
    simp only [applyOp, CInv, MoveUp_cursor_row, MoveUp_cursor_col, MoveUp_rows, MoveUp_cols,
      MoveDown_cursor_row, MoveDown_cursor_col, MoveDown_rows, MoveDown_cols,
      MoveLeft_cursor_row, MoveLeft_cursor_col, MoveLeft_rows, MoveLeft_cols,
      MoveRight_cursor_row, MoveRight_cursor_col, MoveRight_rows, MoveRight_cols, clamp] <;>
    omega

theorem CInv_applyOps (m : Model) (ops : List NavOp) (hr : 1 ≤ m.rows.length)
    (hc : 1 ≤ m.cols.length) (h : CInv m) : CInv (applyOps m ops) := by
  induction ops generalizing m with
  | nil => exact h
  | cons op rest ih =>
    exact ih (applyOp m op)
      (by rw [applyOp_rows]; exact hr)
      (by rw [applyOp_cols]; exact hc)
      (CInv_applyOp m op hr hc h)

theorem applyOps_rows (m : Model) (ops : List NavOp) : (applyOps m ops).rows = m.rows := by
  induction ops generalizing m with
  | nil => rfl
  | cons op rest ih =>
    rw [show applyOps m (op :: rest) = applyOps (applyOp m op) rest from rfl, ih, applyOp_rows]

theorem applyOps_cols (m : Model) (ops : List NavOp) : (applyOps m ops).cols = m.cols := by
  induction ops generalizing m with
  | nil => rfl
  | cons op rest ih =>
    rw [show applyOps m (op :: rest) = applyOps (applyOp m op) rest from rfl, ih, applyOp_cols]

theorem applyOps_paddings (m : Model) (ops : List NavOp) :
    (applyOps m ops).paddings = m.paddings := by
  induction ops generalizing m with
  | nil => rfl
  | cons op rest ih =>
    rw [show applyOps m (op :: rest) = applyOps (applyOp m op) rest from rfl, ih, applyOp_paddings]

theorem CInv_New (cols : List String) (rows : List (List String)) (hr : 1 ≤ rows.length)
    (hc : 1 ≤ cols.length) : CInv (New cols rows) := by
  simp only [CInv, New_cursor_row, New_cursor_col, New_rows, New_cols]
  omega

/-- Claim C3 (counterexample): on a zero-row grid the very first
`MoveDown(1)` sets `cursor_row = −1`, violating `0 ≤ cursor_row`. -/
theorem C3_counterexample :
    ¬(0 ≤ (MoveDown (New ["A"] ([] : List (List String))) 1).cursor_row) := by decide

/-- Claim C3 (amended): for grids with at least one row and one column,
every navigation sequence from a fresh state keeps
`0 ≤ cursor_row ≤ rowCount−1` and `0 ≤ cursor_col ≤ colCount−1`, and
`MoveRight(colCount)` clamps `cursor_col` to exactly `colCount−1`.
(On a zero-row — resp. zero-column — grid the corresponding coordinate
is driven to −1 by the first move on that axis.) -/
theorem C3_amended (cols : List String) (rows : List (List String)) (hr : 1 ≤ rows.length)
    (hc : 1 ≤ cols.length) (ops : List NavOp) :
    0 ≤ (applyOps (New cols rows) ops).cursor_row ∧
      (applyOps (New cols rows) ops).cursor_row ≤ (rows.length : Int) - 1 ∧
      0 ≤ (applyOps (New cols rows) ops).cursor_col ∧
      (applyOps (New cols rows) ops).cursor_col ≤ (cols.length : Int) - 1 ∧
      (MoveRight (applyOps (New cols rows) ops) (cols.length : Int)).cursor_col
        = (cols.length : Int) - 1 := by
  have hI : CInv (applyOps (New cols rows) ops) :=
    CInv_applyOps (New cols rows) ops
      (by rw [New_rows]; exact hr)
      (by rw [New_cols]; exact hc)
      (CInv_New cols rows hr hc)
  obtain ⟨h1, h2, h3, h4⟩ := hI
  rw [applyOps_rows, New_rows] at h2
  rw [applyOps_cols, New_cols] at h4
  refine ⟨h1, h2, h3, h4, ?_⟩
  rw [MoveRight_cursor_col, applyOps_cols, New_cols]
  unfold clamp
  omega

/-- Witness for `C3_amended` on a 1×2 grid after one `MoveDown(1)`. -/
theorem C3_amended_witness :
    1 ≤ [["x", "y"]].length ∧ 1 ≤ ["A", "B"].length ∧
      (0 ≤ (applyOps (New ["A", "B"] [["x", "y"]]) [NavOp.down 1]).cursor_row ∧
        (applyOps (New ["A", "B"] [["x", "y"]]) [NavOp.down 1]).cursor_row
          ≤ (([["x", "y"]].length : Int)) - 1 ∧
        0 ≤ (applyOps (New ["A", "B"] [["x", "y"]]) [NavOp.down 1]).cursor_col ∧
        (applyOps (New ["A", "B"] [["x", "y"]]) [NavOp.down 1]).cursor_col
          ≤ ((["A", "B"].length : Int)) - 1 ∧
        (MoveRight (applyOps (New ["A", "B"] [["x", "y"]]) [NavOp.down 1])
            ((["A", "B"].length : Int))).cursor_col = ((["A", "B"].length : Int)) - 1) :=
  ⟨by decide, by decide, C3_amended ["A", "B"] [["x", "y"]] (by decide) (by decide) [NavOp.down 1]⟩

/-! Column width table. -/

theorem upd_record_length : ∀ (ps : List Nat) (rec : List String), rec.length ≤ ps.length →
    (upd_record ps rec).length = ps.length := by
  intro ps rec
  induction rec generalizing ps with
  | nil => intro _; simp [upd_record]
  | cons v vs ih =>
    intro h
    cases ps with
    | nil => simp at h
    | cons p ps2 =>
      simp only [upd_record, List.length_cons] at h ⊢
      rw [ih ps2 (by omega)]

theorem upd_record_getD : ∀ (ps : List Nat) (rec : List String) (i : Nat),
    rec.length ≤ ps.length →
    (upd_record ps rec).getD i 0 =
      if i < rec.length then max (ps.getD i 0) (glen (rec.getD i "")) else ps.getD i 0 := by
  intro ps rec
  induction rec generalizing ps with
  | nil => intro i _; simp [upd_record]
  | cons v vs ih =>
    intro i h
    cases ps with
    | nil => simp at h
    | cons p ps2 =>
      cases i with
      | zero => simp [upd_record]
      | succ j =>
        simp only [upd_record, List.getD_cons_succ, List.length_cons] at h ⊢
        rw [ih ps2 j (by omega)]
        by_cases hj : j < vs.length
        · rw [if_pos hj, if_pos (by omega)]
        · rw [if_neg hj, if_neg (by omega)]

theorem upd_all_length : ∀ (records : List (List String)) (ps : List Nat),
    (∀ r ∈ records, r.length ≤ ps.length) → (upd_all ps records).length = ps.length := by
  intro records
  induction records with
  | nil => intro ps _; simp [upd_all]
  | cons rec rest ih =>
    intro ps h
    simp only [upd_all]
    have hlen : (upd_record ps rec).length = ps.length :=
      upd_record_length ps rec (h rec (List.mem_cons_self rec rest))
    rw [ih (upd_record ps rec)
        (by intro r hr; rw [hlen]; exact h r (List.mem_cons_of_mem rec hr)), hlen]

theorem upd_all_getD : ∀ (records : List (List String)) (ps : List Nat) (i : Nat),
    (∀ r ∈ records, r.length = ps.length) → i < ps.length →
    (upd_all ps records).getD i 0 = max (ps.getD i 0) (colMax records i) := by
  intro records
  induction records with
  | nil => intro ps i _ _; simp [upd_all, colMax]
  | cons rec rest ih =>
    intro ps i h hi
    simp only [upd_all]
    have hrec : rec.length = ps.length := h rec (List.mem_cons_self rec rest)
    have hlen : (upd_record ps rec).length = ps.length :=
      upd_record_length ps rec (le_of_eq hrec)
    rw [ih (upd_record ps rec) i
        (by intro r hr; rw [hlen]; exact h r (List.mem_cons_of_mem rec hr)) (by omega)]
    rw [upd_record_getD ps rec i (le_of_eq hrec), if_pos (by omega)]
    rw [show colMax (rec :: rest) i = max (glen (rec.getD i "")) (colMax rest i) from rfl]
    omega

theorem getD_map_add_one : ∀ (l : List Nat) (i : Nat), i < l.length →
    (l.map (fun p => p + 1)).getD i 0 = l.getD i 0 + 1 := by
  intro l
  induction l with
  | nil => intro i hi; simp at hi
  | cons p ps ih =>
    intro i hi
    cases i with
    | zero => simp
    | succ j =>
      simp only [List.map_cons, List.getD_cons_succ]
      exact ih j (by simp only [List.length_cons] at hi; omega)

theorem getD_replicate_zero : ∀ (n i : Nat), (List.replicate n (0 : Nat)).getD i 0 = 0 := by
  intro n
  induction n with
  | zero => intro i; simp [List.replicate]
  | succ k ih =>
    intro i
    cases i with
    | zero => simp [List.replicate]
    | succ j => simp only [List.replicate, List.getD_cons_succ]; exact ih j

/-- Claim C6: for a rectangular grid, the width table has one entry per
column and entry `i` equals `1 + max(len(header[i]), max over rows of
len(row[i]))` (byte lengths, margin 1). -/
theorem C6_calc_paddings (cols : List String) (rows : List (List String))
    (hrect : ∀ r ∈ rows, r.length = cols.length) :
    (calc_paddings cols rows).length = cols.length ∧
      ∀ i, i < cols.length →
        (calc_paddings cols rows).getD i 0
          = 1 + max (glen (cols.getD i "")) (colMax rows i) := by
  have hall : ∀ r ∈ (cols :: rows), r.length = (List.replicate cols.length (0 : Nat)).length := by
    intro r hr
    rw [List.length_replicate]
    rcases List.mem_cons.mp hr with h | h
    · rw [h]
    · exact hrect r h
  have hlen : (upd_all (List.replicate cols.length 0) (cols :: rows)).length = cols.length := by
    rw [upd_all_length _ _ (fun r hr => le_of_eq (hall r hr)), List.length_replicate]
  constructor
  · unfold calc_paddings
    rw [List.length_map, hlen]
  · intro i hi
    unfold calc_paddings
    rw [getD_map_add_one _ i (by rw [hlen]; exact hi)]
    rw [upd_all_getD (cols :: rows) _ i hall (by rw [List.length_replicate]; exact hi)]
    rw [getD_replicate_zero]
    rw [show colMax (cols :: rows) i = max (glen (cols.getD i "")) (colMax rows i) from rfl]
    omega

/-- Witness for `C6_calc_paddings` on the spec's example grid. -/
theorem C6_calc_paddings_witness :
    (∀ r ∈ [["1", "Ann"], ["2", "Bob"]], r.length = ["ID", "Name"].length) ∧
      ((calc_paddings ["ID", "Name"] [["1", "Ann"], ["2", "Bob"]]).length
          = ["ID", "Name"].length ∧
        ∀ i, i < ["ID", "Name"].length →
          (calc_paddings ["ID", "Name"] [["1", "Ann"], ["2", "Bob"]]).getD i 0
            = 1 + max (glen (["ID", "Name"].getD i ""))
                (colMax [["1", "Ann"], ["2", "Bob"]] i)) :=
  ⟨by decide, C6_calc_paddings ["ID", "Name"] [["1", "Ann"], ["2", "Bob"]] (by decide)⟩

/-! The panic-aware pipeline succeeds on well-formed grids. -/

theorem listGetP_pos {α : Type} (xs : List α) (i : Int) (h0 : 0 ≤ i)
    (h1 : i.toNat < xs.length) : listGetP xs i = some (xs.get ⟨i.toNat, h1⟩) := by
  unfold listGetP
  rw [dif_pos ⟨h0, h1⟩]

theorem renderCellsAux_some : ∀ (fuel : Nat) (row : List String) (pads : List Nat) (i : Int),
    0 ≤ i → (row.length : Int) - i ≤ fuel → row.length ≤ pads.length →
    ∃ cs, renderCellsAux row pads fuel i = some cs := by
  intro fuel
  induction fuel with
  | zero =>
    intro row pads i h0 hfuel _
    refine ⟨[], ?_⟩
    unfold renderCellsAux
    rw [if_neg (by omega)]
  | succ fuel2 ih =>
    intro row pads i h0 hfuel hpads
    by_cases hlt : i < (row.length : Int)
    · have hrow : i.toNat < row.length := by omega
      have hpad : i.toNat < pads.length := by omega
      obtain ⟨cs, hcs⟩ := ih row pads (i + 1) (by omega) (by omega) hpads
      refine ⟨row.get ⟨i.toNat, hrow⟩ :: cs, ?_⟩
      unfold renderCellsAux
      rw [if_pos hlt, listGetP_pos row i h0 hrow, listGetP_pos pads i h0 hpad]
      dsimp only
      rw [hcs]
      rfl
    · refine ⟨[], ?_⟩
      unfold renderCellsAux
      rw [if_neg hlt]

theorem renderCellsP_some (row : List String) (pads : List Nat) (i : Int)
    (h0 : 0 ≤ i) (hpads : row.length ≤ pads.length) :
    ∃ cs, renderCellsP row pads i = some cs :=
  renderCellsAux_some row.length row pads i h0 (by omega) hpads

theorem renderRowP_some (m : Model) (r : Int) (h0 : 0 ≤ r)
    (h1 : r < (m.rows.length : Int))
    (hrect : ∀ row ∈ m.rows, row.length = m.cols.length)
    (hpad : m.paddings.length = m.cols.length) (hcc : 0 ≤ m.cursor_col) :
    renderRowP m r = some (renderRow m r) := by
  have hn : r.toNat < m.rows.length := by omega
  have hv : listGetP m.rows r = some (m.rows.get ⟨r.toNat, hn⟩) := listGetP_pos m.rows r h0 hn
  have hrow : m.rows.get ⟨r.toNat, hn⟩ ∈ m.rows := List.get_mem m.rows r.toNat hn
  have hlen : (m.rows.get ⟨r.toNat, hn⟩).length ≤ m.paddings.length := by
    rw [hpad]
    exact le_of_eq (hrect _ hrow)
  obtain ⟨cs, hcs⟩ := renderCellsP_some (m.rows.get ⟨r.toNat, hn⟩) m.paddings m.cursor_col hcc hlen
  unfold renderRowP renderRow
  rw [hv]
  dsimp only [Option.bind]
  rw [hcs]
  rfl

theorem mem_intRange {x a b : Int} (h : x ∈ intRange a b) : a ≤ x ∧ x < b := by
  unfold intRange at h
  rw [List.mem_map] at h
  obtain ⟨k, hk, rfl⟩ := h
  rw [List.mem_range] at hk
  simp only [Int.ofNat_eq_coe]
  omega

theorem mapMP_eq_map {α β : Type} (f : α → Option β) (g : α → β) :
    ∀ l : List α, (∀ x ∈ l, f x = some (g x)) → mapMP f l = some (l.map g) := by
  intro l
  induction l with
  | nil => intro _; rfl
  | cons a rest ih =>
    intro h
    unfold mapMP
    rw [h a (List.mem_cons_self a rest), ih (fun x hx => h x (List.mem_cons_of_mem a hx))]
    rfl

theorem viewStart_nonneg (m : Model) : 0 ≤ viewStart m := by
  unfold viewStart clamp
  split_ifs <;> omega

theorem viewEnd_le (m : Model) : viewEnd m ≤ (m.rows.length : Int) := by
  unfold viewEnd clamp
  omega

theorem UpdateViewportP_some (m : Model)
    (hrect : ∀ row ∈ m.rows, row.length = m.cols.length)
    (hpad : m.paddings.length = m.cols.length)
    (hcc : m.rows = [] ∨ 0 ≤ m.cursor_col) :
    UpdateViewportP m = some (UpdateViewport m) := by
  unfold UpdateViewportP UpdateViewport
  rw [mapMP_eq_map (renderRowP m) (renderRow m) _ ?_]
  · intro r hr
    obtain ⟨hra, hrb⟩ := mem_intRange hr
    have hr0 : 0 ≤ r := le_trans (viewStart_nonneg m) hra
    have hrlen : r < (m.rows.length : Int) := lt_of_lt_of_le hrb (viewEnd_le m)
    have hcc2 : 0 ≤ m.cursor_col := by
      rcases hcc with hnil | hpos
      · rw [hnil] at hrlen
        simp only [List.length_nil] at hrlen
        omega
      · exact hpos
    exact renderRowP_some m r hr0 hrlen hrect hpad hcc2

/-- Well-formedness carried along navigation: rectangular grid, one
padding per column, a zero-column grid has no rows, and the column
cursor is nonnegative whenever there is something to render. -/
def WfInv (m : Model) : Prop :=
  (∀ row ∈ m.rows, row.length = m.cols.length) ∧
    m.paddings.length = m.cols.length ∧
    (m.cols = [] → m.rows = []) ∧
    (m.rows = [] ∨ 0 ≤ m.cursor_col)

theorem MoveUpP_some (m : Model) (n : Int) (h : WfInv m) :
    MoveUpP m n = some (MoveUp m n) := by
  obtain ⟨h1, h2, h3, h4⟩ := h
  unfold MoveUpP MoveUp
  apply UpdateViewportP_some
  · rw [moveUpAux_rows, moveUpAux_cols]
    exact h1
  · rw [moveUpAux_paddings, moveUpAux_cols]
    exact h2
  · rw [moveUpAux_rows, moveUpAux_cursor_col]
    rcases h4 with h | h
    · exact Or.inl h
    · exact Or.inr h

theorem MoveDownP_some (m : Model) (n : Int) (h : WfInv m) :
    MoveDownP m n = some (MoveDown m n) := by
  obtain ⟨h1, h2, h3, h4⟩ := h
  unfold MoveDownP MoveDown
  rw [UpdateViewportP_some
    { m with cursor_row := clamp (m.cursor_row + n) 0 ((m.rows.length : Int) - 1) } h1 h2 h4]

theorem MoveRightP_some (m : Model) (n : Int) (h : WfInv m) :
    MoveRightP m n = some (MoveRight m n) := by
  obtain ⟨h1, h2, h3, h4⟩ := h
  unfold MoveRightP MoveRight
  apply UpdateViewportP_some
  · exact h1
  · exact h2
  · by_cases hcols : m.cols = []
    · exact Or.inl (h3 hcols)
    · refine Or.inr ?_
      have hlen : 1 ≤ m.cols.length := List.length_pos.mpr hcols
      show 0 ≤ clamp (m.cursor_col + n) 0 ((m.cols.length : Int) - 1)
      unfold clamp
      omega

theorem MoveLeftP_some (m : Model) (n : Int) (h : WfInv m) :
    MoveLeftP m n = some (MoveLeft m n) := by
  obtain ⟨h1, h2, h3, h4⟩ := h
  unfold MoveLeftP MoveLeft
  apply UpdateViewportP_some
  · exact h1
  · exact h2
  · by_cases hcols : m.cols = []
    · exact Or.inl (h3 hcols)
    · refine Or.inr ?_
      have hlen : 1 ≤ m.cols.length := List.length_pos.mpr hcols
      show 0 ≤ clamp (m.cursor_col - n) 0 ((m.cols.length : Int) - 1)
      unfold clamp
      omega

theorem WfInv_MoveUp (m : Model) (n : Int) (h : WfInv m) : WfInv (MoveUp m n) := by
  obtain ⟨h1, h2, h3, h4⟩ := h
  refine ⟨?_, ?_, ?_, ?_⟩
  · rw [MoveUp_rows, MoveUp_cols]
    exact h1
  · rw [MoveUp_paddings, MoveUp_cols]
    exact h2
  · rw [MoveUp_cols, MoveUp_rows]
    exact h3
  · rw [MoveUp_rows, MoveUp_cursor_col]
    exact h4

theorem WfInv_MoveDown (m : Model) (n : Int) (h : WfInv m) : WfInv (MoveDown m n) := by
  obtain ⟨h1, h2, h3, h4⟩ := h
  refine ⟨?_, ?_, ?_, ?_⟩
  · rw [MoveDown_rows, MoveDown_cols]
    exact h1
  · rw [MoveDown_paddings, MoveDown_cols]
    exact h2
  · rw [MoveDown_cols, MoveDown_rows]
    exact h3
  · rw [MoveDown_rows, MoveDown_cursor_col]
    exact h4

theorem WfInv_MoveRight (m : Model) (n : Int) (h : WfInv m) : WfInv (MoveRight m n) := by
  obtain ⟨h1, h2, h3, h4⟩ := h
  refine ⟨h1, h2, h3, ?_⟩
  by_cases hcols : m.cols = []
  · exact Or.inl (h3 hcols)
  · refine Or.inr ?_
    have hlen : 1 ≤ m.cols.length := List.length_pos.mpr hcols
    rw [MoveRight_cursor_col]
    unfold clamp
    omega

theorem WfInv_MoveLeft (m : Model) (n : Int) (h : WfInv m) : WfInv (MoveLeft m n) := by
  obtain ⟨h1, h2, h3, h4⟩ := h
  refine ⟨h1, h2, h3, ?_⟩
  by_cases hcols : m.cols = []
  · exact Or.inl (h3 hcols)
  · refine Or.inr ?_
    have hlen : 1 ≤ m.cols.length := List.length_pos.mpr hcols
    rw [MoveLeft_cursor_col]
    unfold clamp
    omega

theorem WfInv_applyOp (m : Model) (op : NavOp) (h : WfInv m) : WfInv (applyOp m op) := by
  cases op with
  | up n => exact WfInv_MoveUp m n h
  | down n => exact WfInv_MoveDown m n h
  | left n => exact WfInv_MoveLeft m n h
  | right n => exact WfInv_MoveRight m n h
  | pageUp => exact WfInv_MoveUp m m.viewport.height h
  | pageDown => exact WfInv_MoveDown m m.viewport.height h

theorem applyOpP_some (m : Model) (op : NavOp) (h : WfInv m) :
    applyOpP m op = some (applyOp m op) := by
  cases op with
  | up n => exact MoveUpP_some m n h
  | down n => exact MoveDownP_some m n h
  | left n => exact MoveLeftP_some m n h
  | right n => exact MoveRightP_some m n h
  | pageUp => exact MoveUpP_some m m.viewport.height h
  | pageDown => exact MoveDownP_some m m.viewport.height h

theorem applyOpsP_some (m : Model) (ops : List NavOp) (h : WfInv m) :
    applyOpsP m ops = some (applyOps m ops) := by
  induction ops generalizing m with
  | nil => rfl
  | cons op rest ih =>
    show (match applyOpP m op with
      | some m2 => applyOpsP m2 rest
      | none => none) = some (applyOps m (op :: rest))
    rw [applyOpP_some m op h]
    exact ih (applyOp m op) (WfInv_applyOp m op h)

theorem upd_recordP_eq : ∀ (ps : List Nat) (rec : List String), rec.length ≤ ps.length →
    upd_recordP ps rec = some (upd_record ps rec) := by
  intro ps rec
  induction rec generalizing ps with
  | nil => intro _; simp [upd_recordP, upd_record]
  | cons v vs ih =>
    intro h
    cases ps with
    | nil => simp at h
    | cons p ps2 =>
      simp only [List.length_cons] at h
      unfold upd_recordP upd_record
      rw [ih ps2 (by omega)]
      rfl

theorem upd_allP_eq : ∀ (records : List (List String)) (ps : List Nat),
    (∀ r ∈ records, r.length ≤ ps.length) →
    upd_allP ps records = some (upd_all ps records) := by
  intro records
  induction records with
  | nil => intro ps _; rfl
  | cons rec rest ih =>
    intro ps h
    unfold upd_allP upd_all
    rw [upd_recordP_eq ps rec (h rec (List.mem_cons_self rec rest))]
    exact ih (upd_record ps rec)
      (by intro r hr
          rw [upd_record_length ps rec (h rec (List.mem_cons_self rec rest))]
          exact h r (List.mem_cons_of_mem rec hr))

theorem calc_paddingsP_eq (cols : List String) (rows : List (List String))
    (hrect : ∀ r ∈ rows, r.length = cols.length) :
    calc_paddingsP cols rows = some (calc_paddings cols rows) := by
  unfold calc_paddingsP calc_paddings
  rw [upd_allP_eq (cols :: rows) _ ?_]
  · rfl
  · intro r hr
    rw [List.length_replicate]
    rcases List.mem_cons.mp hr with h | h
    · rw [h]
    · exact le_of_eq (hrect r h)

theorem calc_paddings_length (cols : List String) (rows : List (List String))
    (hrect : ∀ r ∈ rows, r.length = cols.length) :
    (calc_paddings cols rows).length = cols.length := by
  unfold calc_paddings
  rw [List.length_map, upd_all_length (cols :: rows) _ ?_, List.length_replicate]
  intro r hr
  rw [List.length_replicate]
  rcases List.mem_cons.mp hr with h | h
  · rw [h]
  · exact le_of_eq (hrect r h)

theorem WfInv_New (cols : List String) (rows : List (List String))
    (hrect : ∀ r ∈ rows, r.length = cols.length) (hcol : cols = [] → rows = []) :
    WfInv (New cols rows) := by
  refine ⟨?_, ?_, ?_, Or.inr ?_⟩
  · rw [New_rows, New_cols]
    exact hrect
  · rw [New_paddings, New_cols]
    exact calc_paddings_length cols rows hrect
  · rw [New_cols, New_rows]
    exact hcol
  · rw [New_cursor_col]

theorem NewP_some (cols : List String) (rows : List (List String))
    (hrect : ∀ r ∈ rows, r.length = cols.length) :
    NewP cols rows = some (New cols rows) := by
  unfold NewP New
  rw [calc_paddingsP_eq cols rows hrect]
  apply UpdateViewportP_some
  · exact hrect
  · exact calc_paddings_length cols rows hrect
  · exact Or.inr le_rfl

/-- Claim C8 (counterexample): the grid with zero columns and one
(empty) row is rectangular, yet `MoveRight(1)` panics: it clamps
`cursor_col` to `len(cols)−1 = −1` and the re-render then reads
`m.rows[0][-1]`, an out-of-range slice index. -/
theorem C8_counterexample :
    (∀ r ∈ [([] : List String)], r.length = ([] : List String).length) ∧
      MoveRightP (New [] [[]]) 1 = none := by decide

/-- Claim C8 (amended): for a rectangular grid that has at least one
column or no rows, construction and every navigation sequence (the four
moves and the page variants) are panic-free and total: the panic-aware
semantics returns exactly the total-state semantics. -/
theorem C8_amended (cols : List String) (rows : List (List String))
    (hrect : ∀ r ∈ rows, r.length = cols.length) (hcol : cols = [] → rows = [])
    (ops : List NavOp) :
    NewP cols rows = some (New cols rows) ∧
      applyOpsP (New cols rows) ops = some (applyOps (New cols rows) ops) :=
  ⟨NewP_some cols rows hrect,
    applyOpsP_some (New cols rows) ops (WfInv_New cols rows hrect hcol)⟩

/-- Witness for `C8_amended`: a 1×1 grid with a down-then-right
sequence. -/
theorem C8_amended_witness :
    (∀ r ∈ [["x"]], r.length = ["A"].length) ∧ (["A"] = [] → [["x"]] = []) ∧
      (NewP ["A"] [["x"]] = some (New ["A"] [["x"]]) ∧
        applyOpsP (New ["A"] [["x"]]) [NavOp.down 1, NavOp.right 1]
          = some (applyOps (New ["A"] [["x"]]) [NavOp.down 1, NavOp.right 1])) :=
  ⟨by decide, by decide,
    C8_amended ["A"] [["x"]] (by decide) (by decide) [NavOp.down 1, NavOp.right 1]⟩
